import Mathlib

/-!
# Verification of the SageAlpha chat backend (`app.py`)

Shallow embedding of the topic-aware session memory and hybrid
retrieval-augmented answer construction logic of `app.py`, together with
the per-request behaviour of the `/chat`, `/chat_session` and `/query`
handlers.

Python strings are modelled as Lean `String`; the Python `str` methods
used by the code (`strip`, `lower`, slicing, `in`, `join`) are embedded
as explicit functions on the character list, matching their behaviour on
the ASCII data the code manipulates.  Relevance scores (Python floats
compared against the decimal literal `0.35`) are modelled as exact
rationals `ℚ`.  Side effects are made explicit: the Flask cookie session
and the process-wide `SESSIONS` dictionary become state values threaded
through the handler functions, the Azure Search result and the OpenAI
completion result become parameters (`retrieved`, `genResult`), and a
list of the external calls a handler performed is returned alongside the
response so that "rejected before any external call" is statable.
-/

namespace SageAlpha

/-! ## Python string primitives -/

/-- Model of Python `str.lower()` on the ASCII text the app handles. -/
def py_lower (s : String) : String :=
  String.mk (s.toList.map Char.toLower)

/-- Model of Python `str.strip()`: drop leading and trailing whitespace. -/
def py_strip (s : String) : String :=
  String.mk (((s.toList.dropWhile Char.isWhitespace).reverse.dropWhile
      Char.isWhitespace).reverse)

/-- Model of the Python slice `s[:n]`. -/
def py_take (n : Nat) (s : String) : String :=
  String.mk (s.toList.take n)

/-- Model of the Python slice `xs[-limit:]` for a nonnegative `limit`
(note `xs[-0:]` is the whole list, since `-0 == 0`). -/
def py_tail_slice (xs : List α) (limit : Nat) : List α :=
  if limit = 0 then xs else xs.drop (xs.length - limit)

/-- Model of Python `sep.join(parts)`. -/
def joinSep (sep : String) : List String → String
  | [] => ""
  | [x] => x
  | x :: y :: xs => x ++ sep ++ joinSep sep (y :: xs)

/-- `leadsWith needle hay`: `hay` begins with `needle` (character lists). -/
def leadsWith : List Char → List Char → Bool
  | [], _ => true
  | _ :: _, [] => false
  | a :: as, b :: bs => a = b && leadsWith as bs

/-- Model of the Python substring test `needle in hay` (character lists). -/
def containsSub : List Char → List Char → Bool
  | [], needle => needle.isEmpty
  | h :: hs, needle => leadsWith needle (h :: hs) || containsSub hs needle

/-- Model of the Python substring test `needle in hay` on strings. -/
def py_in (needle hay : String) : Bool :=
  containsSub hay.toList needle.toList

/-- `strStartsWith p s`: string `s` begins with `p`. -/
def strStartsWith (p s : String) : Bool :=
  leadsWith p.toList s.toList

/-! ## Topic Tracker (`extract_topic`, app.py lines 112-157) -/

/-- A character matched by the Python regex class `[a-z0-9]`. -/
def isLowerAlnum (c : Char) : Bool :=
  ('a' ≤ c && c ≤ 'z') || ('0' ≤ c && c ≤ '9')

/-- Helper for `findall_tokens`: accumulate the current run of
`[a-z0-9]` characters (in reverse) while scanning the text. -/
def tokensAux : List Char → List Char → List String
  | [], acc => if acc.isEmpty then [] else [String.mk acc.reverse]
  | c :: cs, acc =>
    if isLowerAlnum c then tokensAux cs (c :: acc)
    else if acc.isEmpty then tokensAux cs []
    else String.mk acc.reverse :: tokensAux cs []

/-- Model of `re.findall(r"[a-z0-9]+", text)`: the maximal runs of
lowercase-alphanumeric characters, in order. -/
def findall_tokens (s : String) : List String :=
  tokensAux s.toList []

/-- The fixed closed set `question_starts` of app.py lines 131-148. -/
def question_starts : List String :=
  ["who", "what", "which", "when", "where", "why", "how", "give", "tell",
   "show", "explain", "owner", "ceo", "chairman", "md", "director"]

/-- Embedding of `extract_topic(user_msg, last_topic)` (app.py 112-157).
`last_topic` is `Option String` because the Python parameter defaults to
`None`; the handlers always pass the stored topic string. -/
def extract_topic (user_msg : String) (last_topic : Option String) :
    Option String :=
  if user_msg = "" then last_topic
  else
    let text := py_lower (py_strip user_msg)
    let tokens := findall_tokens text
    match tokens with
    | [] => last_topic
    | t0 :: _ =>
      if t0 ∈ question_starts then last_topic
      else if tokens.length ≤ 4 then some text
      else last_topic

/-! ## Data model -/

/-- A chat message: role (`system` / `user` / `assistant`) and content.
The `meta` mapping attached by `/chat_session` is always the constant
empty dict and is omitted. -/
structure Message where
  role : String
  content : String
deriving DecidableEq, Repr

/-- A Q&A section as appended by the handlers (app.py 430-436, 672-678):
timestamp, query text, answer text. -/
structure Section where
  timestamp : String
  query : String
  answer : String
deriving DecidableEq, Repr

/-- A retrieved document in the unified shape produced by `search_azure`
(app.py 199-228).  `meta` is a Python dict; for the only key the claims
touch, `meta_source = none` models the key `"source"` being absent,
`some none` models it being present with value `None`, and
`some (some s)` a string value (`search_azure` always stores the key,
possibly as `None`).  The unused `people`/`organizations`/`locations`
entries are omitted.  `score` is the float `@search.score`, modelled as
an exact rational. -/
structure RetrievedDoc where
  doc_id : String
  text : String
  meta_source : Option (Option String)
  score : ℚ
deriving DecidableEq, Repr

/-! ## Session Memory Builder (`build_session_memory_sections`,
app.py lines 240-278) -/

/-- The match test of app.py 259-263: the normalized topic occurs as a
substring of the lowercased query or of the lowercased answer. -/
def section_matches (normalized_topic : String) (s : Section) : Bool :=
  py_in normalized_topic (py_lower s.query) ||
  py_in normalized_topic (py_lower s.answer)

/-- Rendering of one section (app.py 273-275):
`[timestamp] Q: query` newline `A: answer`. -/
def render_section (s : Section) : String :=
  "[" ++ s.timestamp ++ "] Q: " ++ s.query ++ "\nA: " ++ s.answer

/-- The section-selection part of `build_session_memory_sections`
(app.py 255-269): filter by topic when one is set, then keep the
Python tail slice `[-limit:]` of the filtered list, falling back to the
tail of the unfiltered list when nothing matched (or no topic). -/
def select_memory_sections (sections : List Section)
    (current_topic : Option String) (limit : Nat) : List Section :=
  let normalized_topic := py_strip (py_lower (current_topic.getD ""))
  let filtered :=
    if normalized_topic = "" then []
    else sections.filter (section_matches normalized_topic)
  if filtered.isEmpty then py_tail_slice sections limit
  else py_tail_slice filtered limit

/-- Embedding of `build_session_memory_sections(sections, current_topic,
limit=5, max_chars=1500)` (app.py 240-278).  The Python defaults
`limit = 5`, `max_chars = 1500` are passed explicitly by the callers in
this embedding. -/
def build_session_memory_sections (sections : List Section)
    (current_topic : Option String) (limit : Nat) (max_chars : Nat) :
    String :=
  if sections.isEmpty then ""
  else
    py_take max_chars
      (joinSep "\n\n"
        ((select_memory_sections sections current_topic limit).map
          render_section))

/-! ## Retrieval Gate and Prompt Assembler (`build_hybrid_messages`,
app.py lines 281-321) -/

/-- The relevance threshold of app.py line 288. -/
def relevance_threshold : ℚ := 35 / 100

/-- The `f"Source: ..."` label of app.py line 293:
`r['meta'].get('source', r['doc_id'])`.  When the `"source"` key is
absent the dict lookup falls back to `doc_id`; when it is present with
value `None`, Python's `dict.get` returns that `None` and the f-string
renders it as the text `None`. -/
def source_label (r : RetrievedDoc) : String :=
  match r.meta_source with
  | none => r.doc_id
  | some none => "None"
  | some (some s) => s

/-- One context chunk (app.py 292-296). -/
def context_chunk (r : RetrievedDoc) : String :=
  "Source: " ++ source_label r ++ "\n" ++ r.text

/-- The context-selection part of `build_hybrid_messages`
(app.py 288-301): keep docs with `score >= 0.35`, render those with
non-empty text, join with blank lines, truncate to 6000 characters;
empty string when no document clears the threshold. -/
def select_context (retrieved_docs : List RetrievedDoc) : String :=
  let relevant_docs :=
    retrieved_docs.filter (fun r => relevance_threshold ≤ r.score)
  if relevant_docs.isEmpty then ""
  else
    py_take 6000
      (joinSep "\n\n"
        ((relevant_docs.filter (fun r => r.text ≠ "")).map context_chunk))

/-- The fixed persona system prompt of app.py 303-311. -/
def system_prompt : String :=
  "You are SageAlpha, a financial assistant powered by SageAlpha.ai.\n" ++
  "Use this logic:\n" ++
  "1. If the Context contains useful information, use it to answer.\n" ++
  "2. If the Context is empty or not relevant, answer using your own knowledge.\n" ++
  "3. Be precise and financially accurate.\n" ++
  "4. Respond in clear plain text only. Do not use markdown formatting, asterisks (*),\n" ++
  "   hash symbols (\x23), bullet lists, or code blocks.\n"

/-- Embedding of `build_hybrid_messages(user_msg, retrieved_docs,
extra_system_msgs)` (app.py 281-321): persona system message, then the
caller-supplied extra system messages, then the `Context:` system
message (always present), then the user message. -/
def build_hybrid_messages (user_msg : String)
    (retrieved_docs : List RetrievedDoc)
    (extra_system_msgs : List Message) : List Message :=
  ⟨"system", system_prompt⟩ ::
    (extra_system_msgs ++
      [⟨"system", "Context:\n" ++ select_context retrieved_docs⟩,
       Message.mk "user" user_msg])

/-- The `extra_system_msgs` list built by both chat handlers
(app.py 402-409 and 644-651): one session-memory system message when the
memory text is non-empty, nothing otherwise. -/
def memory_system_msgs (session_memory_text : String) : List Message :=
  if session_memory_text = "" then []
  else
    [⟨"system",
      "Session memory (previous Q&A sections):\n" ++ session_memory_text⟩]

/-! ## Handler models

The handlers' side effects are made explicit: the Flask cookie session
(`/chat`) and the process-wide `SESSIONS` dict (`/chat_session`) are
threaded as state, the Azure Search result (`retrieved`) and the OpenAI
completion result (`genResult`, `Except` for the try/except) are
parameters, the `uuid4()` fresh id and `datetime.utcnow().isoformat()`
timestamp are parameters (`fresh_id`, `now`), and each handler returns
the list of external calls it performed. -/

/-- An external call performed by a handler: the Azure Search query
(`search_azure`) or the OpenAI completion on an assembled message list. -/
inductive ExtCall
  | search (query_text : String)
  | generate (messages : List Message)
deriving DecidableEq, Repr

/-- One entry of the `sources` list of the responses (app.py 441-448,
523-530, 680-687): `r["meta"].get("source")` is `none` when the key is
absent or stored as `None`. -/
structure SourceEntry where
  doc_id : String
  source : Option String
  score : ℚ
deriving DecidableEq, Repr

/-- `{"doc_id": r["doc_id"], "source": r["meta"].get("source"),
"score": float(r["score"])}`. -/
def mk_source_entry (r : RetrievedDoc) : SourceEntry :=
  ⟨r.doc_id, r.meta_source.join, r.score⟩

/-! ### `/chat` (single ongoing conversation, app.py 364-488) and
`/reset_history` (app.py 554-559) -/

/-- The Flask cookie-session state used by `/chat`: each key may be
absent (`none`) before the first request or after `/reset_history`. -/
structure FlaskSessionState where
  history : Option (List Message)
  sections : Option (List Section)
  current_topic : Option String
deriving DecidableEq, Repr

/-- The seed system message installed at app.py 379-384. -/
def seed_message : Message :=
  ⟨"system",
   "I’m SageAlpha, a financial assistant powered by SageAlpha.ai to support your financial decisions."⟩

/-- Embedding of `/reset_history` (app.py 554-559): pop all three keys. -/
def reset_history (_st : FlaskSessionState) : FlaskSessionState :=
  ⟨none, none, none⟩

/-- The initialization block of `/chat` (app.py 377-388): install the
seed history, empty sections and empty topic for any absent key. -/
def ensure_chat_state (st : FlaskSessionState) : FlaskSessionState :=
  ⟨some (st.history.getD [seed_message]),
   some (st.sections.getD []),
   some (st.current_topic.getD "")⟩

/-- Outcome of a `/chat` request.  The `uuid4` message id and the
duplicated `message`/`data` echo objects of the JSON body carry no
state and are omitted. -/
inductive ChatOutcome
  | validation_error (error : String) (code : Nat)
  | ok (response : String) (sources : List SourceEntry)
  | backend_error (error : String) (code : Nat)
deriving DecidableEq, Repr

/-- Embedding of the `/chat` handler (app.py 364-488).  On the
generation-failure path the user message already appended to the
in-place-mutated `history` list persists in the Flask session (the
session was marked modified by the `current_topic` assignment at line
396), while `sections` is unchanged. -/
def chat (payload_message : Option String) (now : String)
    (st : FlaskSessionState) (retrieved : List RetrievedDoc)
    (genResult : Except String String) :
    ChatOutcome × FlaskSessionState × List ExtCall :=
  let user_msg := py_strip (payload_message.getD "")
  if user_msg = "" then (.validation_error "Empty message" 400, st, [])
  else
    let st := ensure_chat_state st
    let history := st.history.getD []
    let sections := st.sections.getD []
    let last_topic := st.current_topic.getD ""
    let current_topic := extract_topic user_msg (some last_topic)
    let topic_str := current_topic.getD ""
    let history := history ++ [Message.mk "user" user_msg]
    let session_memory_text :=
      build_session_memory_sections sections current_topic 5 1500
    let messages :=
      build_hybrid_messages user_msg retrieved
        (memory_system_msgs session_memory_text)
    match genResult with
    | .ok ai_msg =>
      (.ok ai_msg (retrieved.map mk_source_entry),
       ⟨some (history ++ [Message.mk "assistant" ai_msg]),
        some (sections ++ [Section.mk now user_msg ai_msg]),
        some topic_str⟩,
       [.search user_msg, .generate messages])
    | .error e =>
      (.backend_error ("Backend error: " ++ e) 500,
       ⟨some history, some sections, some topic_str⟩,
       [.search user_msg, .generate messages])

/-! ### `/chat_session` (multi-session, app.py 614-698) -/

/-- One entry of the `SESSIONS` dict (app.py 71-86). -/
structure SessionData where
  id : String
  title : String
  created : String
  messages : List Message
  sections : List Section
  current_topic : String
deriving DecidableEq, Repr

/-- The `SESSIONS` dict, as an insertion-ordered association list. -/
abbrev Store := List (String × SessionData)

/-- Python `SESSIONS.get(sid)` / `sid in SESSIONS`. -/
def lookup_session : Store → String → Option SessionData
  | [], _ => none
  | (k, v) :: rest, sid => if k = sid then some v else lookup_session rest sid

/-- Python `SESSIONS[sid] = s`: overwrite an existing binding in place,
otherwise append the new binding. -/
def insert_session : Store → String → SessionData → Store
  | [], sid, s => [(sid, s)]
  | (k, v) :: rest, sid, s =>
    if k = sid then (sid, s) :: rest else (k, v) :: insert_session rest sid s

/-- `create_session(title)` (app.py 74-86) without the store insertion:
the fresh `SessionData` value (`title or "New chat"`). -/
def new_session (sid now title : String) : SessionData :=
  ⟨sid, if title = "" then "New chat" else title, now, [], [], ""⟩

/-- The session-resolution step of `/chat_session` (app.py 628-633):
`if session_id and session_id in SESSIONS` use it, otherwise create a
fresh `"New chat"` session (an empty-string id is falsy in Python and
also leads to creation). -/
def resolve_session (payload_session_id : Option String)
    (fresh_id now : String) (store : Store) : String × SessionData :=
  match payload_session_id with
  | some sid =>
    if sid = "" then (fresh_id, new_session fresh_id now "New chat")
    else
      match lookup_session store sid with
      | some s => (sid, s)
      | none => (fresh_id, new_session fresh_id now "New chat")
  | none => (fresh_id, new_session fresh_id now "New chat")

/-- Outcome of a `/chat_session` request.  The endpoint has no
Not-Found outcome: an unknown id leads to session creation. -/
inductive SessionOutcome
  | validation_error (error : String) (code : Nat)
  | ok (session_id : String) (response : String) (sources : List SourceEntry)
  | backend_error (error : String) (code : Nat)
deriving DecidableEq, Repr

/-- Embedding of the `/chat_session` handler (app.py 614-698).  The user
message is appended (line 635) and the topic updated (line 640) before
the generation call; on generation failure the session — freshly created
or not — keeps that user message with no assistant message and no
section. -/
def chat_session (payload_session_id payload_message : Option String)
    (fresh_id now : String) (store : Store)
    (retrieved : List RetrievedDoc) (genResult : Except String String) :
    SessionOutcome × Store × List ExtCall :=
  let user_msg := py_strip (payload_message.getD "")
  if user_msg = "" then (.validation_error "Empty message" 400, store, [])
  else
    let resolved := resolve_session payload_session_id fresh_id now store
    let session_id := resolved.1
    let s := resolved.2
    let s := { s with messages := s.messages ++ [Message.mk "user" user_msg] }
    let current_topic := extract_topic user_msg (some s.current_topic)
    let s := { s with current_topic := current_topic.getD "" }
    let session_memory_text :=
      build_session_memory_sections s.sections current_topic 5 1500
    let messages :=
      build_hybrid_messages user_msg retrieved
        (memory_system_msgs session_memory_text)
    match genResult with
    | .ok ai_msg =>
      let s := { s with
        messages := s.messages ++ [Message.mk "assistant" ai_msg],
        sections := s.sections ++ [Section.mk now user_msg ai_msg] }
      (.ok session_id ai_msg (retrieved.map mk_source_entry),
       insert_session store session_id s,
       [.search user_msg, .generate messages])
    | .error e =>
      (.backend_error e 500,
       insert_session store session_id s,
       [.search user_msg, .generate messages])

/-! ### `/query` (one-shot, app.py 492-534) -/

/-- Outcome of a `/query` request. -/
inductive QueryOutcome
  | validation_error (error : String) (code : Nat)
  | ok (answer : String) (sources : List SourceEntry)
  | backend_error (error : String) (code : Nat)
deriving DecidableEq, Repr

/-- Embedding of the stateless `/query` handler (app.py 492-534).  The
`strip_markdown` plain-text cleanup applied to the answer text (app.py
96-109, line 521) is a pure string-to-string post-processing step no
claim concerns; the `answer` field here is the pre-cleanup generation
result. -/
def query (payload_q : Option String) (retrieved : List RetrievedDoc)
    (genResult : Except String String) : QueryOutcome × List ExtCall :=
  let q := py_strip (payload_q.getD "")
  if q = "" then (.validation_error "Empty query" 400, [])
  else
    let messages := build_hybrid_messages q retrieved []
    match genResult with
    | .ok ai_msg =>
      (.ok ai_msg (retrieved.map mk_source_entry),
       [.search q, .generate messages])
    | .error e =>
      (.backend_error e 500, [.search q, .generate messages])

/-! ## Helper lemmas -/

theorem extract_topic_no_tokens (msg prev : String)
    (h : findall_tokens (py_lower (py_strip msg)) = []) :
    extract_topic msg (some prev) = some prev := by
  unfold extract_topic
  by_cases hm : msg = ""
  · simp [hm]
  · simp [hm, h]

theorem extract_topic_question (msg prev t0 : String) (ts : List String)
    (h : findall_tokens (py_lower (py_strip msg)) = t0 :: ts)
    (hq : t0 ∈ question_starts) :
    extract_topic msg (some prev) = some prev := by
  unfold extract_topic
  have hm : msg ≠ "" := by
    intro hm; rw [hm] at h; simp [findall_tokens, py_strip, py_lower, tokensAux] at h
  simp [hm, h, hq]

theorem extract_topic_short (msg prev t0 : String) (ts : List String)
    (h : findall_tokens (py_lower (py_strip msg)) = t0 :: ts)
    (hq : t0 ∉ question_starts) (hlen : (t0 :: ts).length ≤ 4) :
    extract_topic msg (some prev) = some (py_lower (py_strip msg)) := by
  unfold extract_topic
  have hm : msg ≠ "" := by
    intro hm; rw [hm] at h; simp [findall_tokens, py_strip, py_lower, tokensAux] at h
  simp [hm, h, hq, hlen]
  intro hcon
  exfalso
  simp [List.length_cons] at hlen
  omega

theorem extract_topic_long (msg prev t0 : String) (ts : List String)
    (h : findall_tokens (py_lower (py_strip msg)) = t0 :: ts)
    (hq : t0 ∉ question_starts) (hlen : 4 < (t0 :: ts).length) :
    extract_topic msg (some prev) = some prev := by
  unfold extract_topic
  have hm : msg ≠ "" := by
    intro hm; rw [hm] at h; simp [findall_tokens, py_strip, py_lower, tokensAux] at h
  simp [hm, h, hq]
  intro hcon
  exfalso
  simp [List.length_cons] at hlen
  omega

theorem select_context_eq (docs : List RetrievedDoc) :
    select_context docs =
      py_take 6000 (joinSep "\n\n"
        (((docs.filter (fun r => relevance_threshold ≤ r.score)).filter
            (fun r => r.text ≠ "")).map context_chunk)) := by
  unfold select_context
  cases hl : docs.filter (fun r => relevance_threshold ≤ r.score) with
  | nil => simp [hl, joinSep, py_take]
  | cons a as => simp [hl]

theorem py_take_length_le (n : Nat) (s : String) : (py_take n s).length ≤ n := by
  show (s.toList.take n).length ≤ n
  rw [List.length_take]
  exact Nat.min_le_left _ _

theorem py_tail_slice_sublist (xs : List α) (limit : Nat) :
    (py_tail_slice xs limit).Sublist xs := by
  unfold py_tail_slice
  split
  · exact List.Sublist.refl xs
  · exact List.drop_sublist _ xs

theorem lookup_insert_session (store : Store) (sid : String) (s : SessionData) :
    lookup_session (insert_session store sid s) sid = some s := by
  induction store with
  | nil => simp [insert_session, lookup_session]
  | cons p rest ih =>
    by_cases h : p.1 = sid
    · simp [insert_session, lookup_session, h]
    · simp [insert_session, lookup_session, h, ih]

theorem mem_insert_session (p : String × SessionData) (store : Store)
    (sid : String) (s : SessionData)
    (hp : p ∈ insert_session store sid s) : p = (sid, s) ∨ p ∈ store := by
  induction store with
  | nil => simpa [insert_session] using hp
  | cons q rest ih =>
    by_cases h : q.1 = sid
    · rw [insert_session] at hp
      simp only [h, ite_true, if_true] at hp
      rcases List.mem_cons.mp hp with h1 | h2
      · exact Or.inl h1
      · exact Or.inr (List.mem_cons_of_mem _ h2)
    · rw [insert_session] at hp
      simp only [h, ite_false, if_false] at hp
      rcases List.mem_cons.mp hp with h1 | h2
      · exact Or.inr (h1 ▸ List.mem_cons_self _ _)
      · rcases ih h2 with h3 | h4
        · exact Or.inl h3
        · exact Or.inr (List.mem_cons_of_mem _ h4)

theorem lookup_session_mem (store : Store) (sid : String) (s : SessionData)
    (h : lookup_session store sid = some s) : (sid, s) ∈ store := by
  induction store with
  | nil => simp [lookup_session] at h
  | cons p rest ih =>
    rw [lookup_session] at h
    by_cases hp : p.1 = sid
    · simp only [hp, ite_true, if_true, Option.some.injEq] at h
      have hps : p = (sid, s) := by
        cases p with
        | mk a b =>
          simp only at hp h
          rw [hp, h]
      rw [← hps]
      exact List.mem_cons_self _ _
    · simp only [hp, ite_false, if_false] at h
      exact List.mem_cons_of_mem _ (ih h)

theorem resolve_session_cases (psid : Option String) (fresh_id now : String)
    (store : Store) :
    resolve_session psid fresh_id now store =
      (fresh_id, new_session fresh_id now "New chat") ∨
    resolve_session psid fresh_id now store ∈ store := by
  unfold resolve_session
  cases psid with
  | none => exact Or.inl rfl
  | some sid =>
    by_cases h : sid = ""
    · simp [h]
    · simp only [h, ite_false, if_false]
      cases hl : lookup_session store sid with
      | none => exact Or.inl rfl
      | some s => exact Or.inr (lookup_session_mem store sid s hl)

/-! ## Claims -/

/-- C1 (counterexample): the claim that appending a turn is transactional
fails on the code.  A single `/chat_session` request on a fresh store
whose generation call fails leaves the touched conversation with one
message (the user message, appended before the generation call at
app.py 635) and zero sections, and `1 ≠ 2 * 0`. -/
theorem C1_append_turn_ctrex :
    (Option.map (fun s => (s.messages.length, s.sections.length))
      (lookup_session
        (chat_session none (some "hi") "s1" "t0" [] []
          (Except.error "boom")).2.1 "s1") = some (1, 0)) ∧
    (1 : Nat) ≠ 2 * 0 :=
  ⟨by decide, by decide⟩

/-- C1 (amended): for a `/chat_session` request whose generation call
succeeds, the user Message, the assistant Message and the one Section
are recorded together: the resolved conversation gains exactly the
user/assistant pair in its message list and the matching section in its
section list, and any store in which every conversation's message count
equals twice its section count still satisfies that invariant after the
request.  (A failed generation call instead records the user Message
alone, as the counterexample shows.) -/
theorem C1_append_turn (psid pm : Option String) (fresh_id now : String)
    (store : Store) (retrieved : List RetrievedDoc) (ans : String)
    (hmsg : py_strip (pm.getD "") ≠ "") :
    (chat_session psid pm fresh_id now store retrieved (Except.ok ans)).2.1 =
      insert_session store (resolve_session psid fresh_id now store).1
        { (resolve_session psid fresh_id now store).2 with
          messages := (resolve_session psid fresh_id now store).2.messages ++
            [Message.mk "user" (py_strip (pm.getD "")),
             Message.mk "assistant" ans],
          sections := (resolve_session psid fresh_id now store).2.sections ++
            [Section.mk now (py_strip (pm.getD "")) ans],
          current_topic := (extract_topic (py_strip (pm.getD ""))
            (some (resolve_session psid fresh_id now store).2.current_topic)).getD "" } ∧
    ((∀ p ∈ store, p.2.messages.length = 2 * p.2.sections.length) →
      ∀ p ∈ (chat_session psid pm fresh_id now store retrieved (Except.ok ans)).2.1,
        p.2.messages.length = 2 * p.2.sections.length) := by
  have hmain : (chat_session psid pm fresh_id now store retrieved (Except.ok ans)).2.1 =
      insert_session store (resolve_session psid fresh_id now store).1
        { (resolve_session psid fresh_id now store).2 with
          messages := (resolve_session psid fresh_id now store).2.messages ++
            [Message.mk "user" (py_strip (pm.getD "")),
             Message.mk "assistant" ans],
          sections := (resolve_session psid fresh_id now store).2.sections ++
            [Section.mk now (py_strip (pm.getD "")) ans],
          current_topic := (extract_topic (py_strip (pm.getD ""))
            (some (resolve_session psid fresh_id now store).2.current_topic)).getD "" } := by
    unfold chat_session
    rw [if_neg hmsg]
    simp only [List.append_assoc]
    rfl
  refine ⟨hmain, ?_⟩
  intro hstore p hp
  rw [hmain] at hp
  rcases mem_insert_session p store _ _ hp with h1 | h2
  · subst h1
    have hbase : (resolve_session psid fresh_id now store).2.messages.length =
        2 * (resolve_session psid fresh_id now store).2.sections.length := by
      rcases resolve_session_cases psid fresh_id now store with hc | hc
      · rw [hc]
        rfl
      · exact hstore _ hc
    simp only [List.length_append, List.length_cons, List.length_nil]
    omega
  · exact hstore p h2

/-- C1 (witness): the amended theorem at a concrete successful request
on an empty store. -/
theorem C1_append_turn_witness :
    (chat_session none (some "hello") "s1" "t0" [] []
        (Except.ok "fine")).2.1 =
      [("s1", ⟨"s1", "New chat", "t0",
        [Message.mk "user" "hello", Message.mk "assistant" "fine"],
        [Section.mk "t0" "hello" "fine"], "hello"⟩)] ∧
    ((∀ p ∈ ([] : Store), p.2.messages.length = 2 * p.2.sections.length) →
      ∀ p ∈ (chat_session none (some "hello") "s1" "t0" [] []
          (Except.ok "fine")).2.1,
        p.2.messages.length = 2 * p.2.sections.length) :=
  ⟨(C1_append_turn none (some "hello") "s1" "t0" [] [] "fine" (by decide)).1,
   (C1_append_turn none (some "hello") "s1" "t0" [] [] "fine" (by decide)).2⟩

/-- C2: `extract_topic` follows the stated algorithm: no lowercase
alphanumeric tokens (including the empty and whitespace-only message)
keeps the previous topic; a first token in the fixed question-word set
keeps the previous topic; otherwise at most 4 tokens make the lowercase
stripped message text the new topic; more than 4 tokens keep the
previous topic.  In particular `extract_topic "Cupid Limited" "" =
"cupid limited"` and `extract_topic "who is the owner" "cupid limited" =
"cupid limited"`. -/
theorem C2_topic_tracker :
    (∀ msg prev, findall_tokens (py_lower (py_strip msg)) = [] →
        extract_topic msg (some prev) = some prev) ∧
    (∀ msg prev t0 ts, findall_tokens (py_lower (py_strip msg)) = t0 :: ts →
        t0 ∈ question_starts → extract_topic msg (some prev) = some prev) ∧
    (∀ msg prev t0 ts, findall_tokens (py_lower (py_strip msg)) = t0 :: ts →
        t0 ∉ question_starts → (t0 :: ts).length ≤ 4 →
        extract_topic msg (some prev) = some (py_lower (py_strip msg))) ∧
    (∀ msg prev t0 ts, findall_tokens (py_lower (py_strip msg)) = t0 :: ts →
        t0 ∉ question_starts → 4 < (t0 :: ts).length →
        extract_topic msg (some prev) = some prev) ∧
    extract_topic "Cupid Limited" (some "") = some "cupid limited" ∧
    extract_topic "who is the owner" (some "cupid limited") =
      some "cupid limited" :=
  ⟨extract_topic_no_tokens, extract_topic_question, extract_topic_short,
   extract_topic_long, by decide, by decide⟩

/-- C2 (witness): the four conditional branches of the topic-tracker
theorem at concrete inputs: a whitespace-only message, a short new
topic, a question-word start, and a long sentence. -/
theorem C2_topic_tracker_witness :
    extract_topic "   " (some "tata motors") = some "tata motors" ∧
    extract_topic "Tata Motors" (some "") = some "tata motors" ∧
    extract_topic "give the ceo name" (some "tata motors") =
      some "tata motors" ∧
    extract_topic "please summarize the last five quarters"
      (some "tata motors") = some "tata motors" :=
  ⟨C2_topic_tracker.1 "   " "tata motors" (by decide),
   C2_topic_tracker.2.2.1 "Tata Motors" "" "tata" ["motors"]
     (by decide) (by decide) (by decide),
   C2_topic_tracker.2.1 "give the ceo name" "tata motors" "give"
     ["the", "ceo", "name"] (by decide) (by decide),
   C2_topic_tracker.2.2.2.1 "please summarize the last five quarters"
     "tata motors" "please" ["summarize", "the", "last", "five", "quarters"]
     (by decide) (by decide) (by decide)⟩

set_option maxRecDepth 8192 in
/-- C3: the Prompt Assembler emits, in fixed order, the persona system
message, then the session-memory system message only when the memory
text is non-empty, then exactly one system message labeled `Context:`
(also when the context is empty), then the user message with the raw
text; the memory message is the only conditional element. -/
theorem C3_prompt_assembler (user_msg : String)
    (retrieved : List RetrievedDoc) (mem : String) :
    build_hybrid_messages user_msg retrieved (memory_system_msgs mem) =
      [Message.mk "system" system_prompt] ++
        (if mem = "" then []
         else [Message.mk "system"
           ("Session memory (previous Q&A sections):\n" ++ mem)]) ++
        [Message.mk "system" ("Context:\n" ++ select_context retrieved),
         Message.mk "user" user_msg] ∧
    ((build_hybrid_messages user_msg retrieved (memory_system_msgs mem)).filter
        (fun m => m.role = "system" && strStartsWith "Context:" m.content)).length
      = 1 := by
  constructor
  · rfl
  · by_cases h : mem = ""
    · subst h
      rfl
    · unfold build_hybrid_messages memory_system_msgs
      rw [if_neg h]
      rfl

/-- C4: the Retrieval Gate keeps exactly the documents with score
`≥ 0.35` in original order, renders each kept document with non-empty
text as `Source: <label>` newline `<text>`, joins with blank lines and
truncates to 6000 characters; the boundary is inclusive (a document at
exactly 0.35 is kept, one at 0.34 dropped), and with no document over
the threshold — including the empty list — the context is the empty
string. -/
theorem C4_retrieval_gate :
    (∀ docs : List RetrievedDoc,
      select_context docs =
        py_take 6000 (joinSep "\n\n"
          (((docs.filter (fun r => relevance_threshold ≤ r.score)).filter
              (fun r => r.text ≠ "")).map context_chunk))) ∧
    select_context
        [⟨"d1", "text one", some (some "s1"), 35/100⟩,
         ⟨"d2", "text two", some (some "s2"), 34/100⟩] =
      "Source: s1\ntext one" ∧
    select_context [] = "" := by
  refine ⟨select_context_eq, ?_, rfl⟩
  have h1 : relevance_threshold ≤ ((35 : ℚ)/100) := by
    norm_num [relevance_threshold]
  have h2 : ¬ relevance_threshold ≤ ((34 : ℚ)/100) := by
    norm_num [relevance_threshold]
  rw [select_context_eq]
  simp only [List.filter_cons, List.filter_nil, h1, h2, decide_eq_true_eq,
    if_true, if_false, ite_true, ite_false]
  norm_num
  rfl

/-- C5: with a non-empty normalized topic matching zero sections, the
Session Memory Builder renders the last `limit` sections of the
unfiltered sequence, in original order; when some sections match, it
renders the last `limit` matching ones. -/
theorem C5_memory_fallback (sections : List Section) (topic : Option String)
    (limit max_chars : Nat)
    (hne : sections ≠ [])
    (ht : py_strip (py_lower (topic.getD "")) ≠ "") :
    (sections.filter
        (section_matches (py_strip (py_lower (topic.getD "")))) = [] →
      build_session_memory_sections sections topic limit max_chars =
        py_take max_chars (joinSep "\n\n"
          ((py_tail_slice sections limit).map render_section))) ∧
    (sections.filter
        (section_matches (py_strip (py_lower (topic.getD "")))) ≠ [] →
      build_session_memory_sections sections topic limit max_chars =
        py_take max_chars (joinSep "\n\n"
          ((py_tail_slice
              (sections.filter
                (section_matches (py_strip (py_lower (topic.getD "")))))
              limit).map render_section))) := by
  unfold build_session_memory_sections select_memory_sections
  have hs : sections.isEmpty = false := by
    cases sections with
    | nil => exact absurd rfl hne
    | cons a as => rfl
  constructor
  · intro hfil
    simp only [hs, ht, hfil, ite_false, if_false, List.isEmpty_nil, ite_true,
      if_true, Bool.false_eq_true]
  · intro hfil
    have hfe : (sections.filter
        (section_matches (py_strip (py_lower (topic.getD ""))))).isEmpty
          = false := by
      cases hc : sections.filter
          (section_matches (py_strip (py_lower (topic.getD "")))) with
      | nil => exact absurd hc hfil
      | cons a as => rfl
    simp only [hs, ht, hfe, ite_false, if_false, Bool.false_eq_true]

/-- C5 (witness): a single section and a topic matching neither its
query nor its answer: the output is the rendering of the tail of the
unfiltered sequence. -/
theorem C5_memory_fallback_witness :
    build_session_memory_sections
        [Section.mk "t1" "hello there" "general reply"] (some "Zzz") 5 1500 =
      py_take 1500 (joinSep "\n\n"
        ((py_tail_slice [Section.mk "t1" "hello there" "general reply"] 5).map
          render_section)) :=
  (C5_memory_fallback [Section.mk "t1" "hello there" "general reply"]
    (some "Zzz") 5 1500 (by decide) (by decide)).1 (by decide)

/-- C6: the Session Memory Builder's output never exceeds `max_chars`
characters, the selected sections are a sublist of the input (original
order, no reordering — mutation-free by construction in this pure
embedding), and the empty input yields the empty string. -/
theorem C6_memory_guarantees (sections : List Section)
    (topic : Option String) (limit max_chars : Nat) :
    (build_session_memory_sections sections topic limit max_chars).length
      ≤ max_chars ∧
    (select_memory_sections sections topic limit).Sublist sections ∧
    build_session_memory_sections [] topic limit max_chars = "" := by
  refine ⟨?_, ?_, rfl⟩
  · unfold build_session_memory_sections
    split
    · exact Nat.zero_le _
    · exact py_take_length_le _ _
  · unfold select_memory_sections
    set nt := py_strip (py_lower (topic.getD "")) with hnt
    set f := if nt = "" then ([] : List Section)
      else sections.filter (section_matches nt) with hf
    by_cases h : f.isEmpty
    · simp only [h, ite_true, if_true]
      exact py_tail_slice_sublist _ _
    · simp only [h, ite_false, if_false]
      refine (py_tail_slice_sublist _ _).trans ?_
      split
      · exact List.nil_sublist _
      · exact List.filter_sublist _

/-- C7: after `reset()` the single ongoing conversation is back in its
initial state: the next request's initialization step observes a
history of exactly the one seed system message, empty sections and an
empty current topic. -/
theorem C7_reset (st : FlaskSessionState) :
    (ensure_chat_state (reset_history st)).history = some [seed_message] ∧
    [seed_message].length = 1 ∧
    seed_message.role = "system" ∧
    (ensure_chat_state (reset_history st)).sections = some [] ∧
    (ensure_chat_state (reset_history st)).current_topic = some "" :=
  ⟨rfl, rfl, rfl, rfl, rfl⟩

/-- C8: a request whose message text strips to empty (missing, empty or
whitespace-only) is rejected by `/chat`, `/chat_session` and `/query`
with a validation error, with no external call made and no state
modified. -/
theorem C8_empty_rejected (pm psid : Option String) (fresh_id now : String)
    (st : FlaskSessionState) (store : Store)
    (retrieved : List RetrievedDoc) (genResult : Except String String)
    (h : py_strip (pm.getD "") = "") :
    chat pm now st retrieved genResult =
      (.validation_error "Empty message" 400, st, []) ∧
    chat_session psid pm fresh_id now store retrieved genResult =
      (.validation_error "Empty message" 400, store, []) ∧
    query pm retrieved genResult = (.validation_error "Empty query" 400, []) := by
  refine ⟨?_, ?_, ?_⟩ <;>
    simp only [chat, chat_session, query, h, ite_true, if_true]

/-- C8 (witness): the rejection at a concrete whitespace-only message. -/
theorem C8_empty_rejected_witness :
    chat (some "   ") "t0" ⟨none, none, none⟩ [] (Except.ok "a") =
      (.validation_error "Empty message" 400, ⟨none, none, none⟩, []) ∧
    chat_session none (some "   ") "s1" "t0" [] [] (Except.ok "a") =
      (.validation_error "Empty message" 400, [], []) ∧
    query (some "   ") [] (Except.ok "a") =
      (.validation_error "Empty query" 400, []) :=
  C8_empty_rejected (some "   ") none "s1" "t0" ⟨none, none, none⟩ [] []
    (Except.ok "a") rfl

/-- C9: on a successful request both chat endpoints return one source
entry per retrieved document, in retrieval order, with no threshold
filtering (the sources list is the plain map of `mk_source_entry` over
the full retrieval result, so below-threshold documents appear too). -/
theorem C9_sources_unfiltered (pm psid : Option String)
    (fresh_id now : String) (st : FlaskSessionState) (store : Store)
    (retrieved : List RetrievedDoc) (ans : String)
    (hmsg : py_strip (pm.getD "") ≠ "") :
    (chat pm now st retrieved (Except.ok ans)).1 =
      ChatOutcome.ok ans (retrieved.map mk_source_entry) ∧
    (chat_session psid pm fresh_id now store retrieved (Except.ok ans)).1 =
      SessionOutcome.ok (resolve_session psid fresh_id now store).1 ans
        (retrieved.map mk_source_entry) ∧
    (retrieved.map mk_source_entry).length = retrieved.length := by
  refine ⟨?_, ?_, by simp⟩
  · unfold chat
    rw [if_neg hmsg]
  · unfold chat_session
    rw [if_neg hmsg]

/-- C9 (witness): the sources theorem at a concrete request. -/
theorem C9_sources_unfiltered_witness :
    (chat (some "hi") "t0" ⟨none, none, none⟩ [] (Except.ok "fine")).1 =
      ChatOutcome.ok "fine" [] ∧
    (chat_session none (some "hi") "s1" "t0" [] [] (Except.ok "fine")).1 =
      SessionOutcome.ok "s1" "fine" [] ∧
    ([] : List SourceEntry).length = ([] : List RetrievedDoc).length :=
  C9_sources_unfiltered (some "hi") none "s1" "t0" ⟨none, none, none⟩ [] []
    "fine" (by decide)

/-- C10: a `/chat_session` request with an absent, falsy or unknown
session id never yields Not-Found: a fresh conversation titled
`New chat` is created under the fresh id, the message is processed in
it (the turn is recorded there), and the fresh id is returned in the
response. -/
theorem C10_unknown_session_creates (psid pm : Option String)
    (fresh_id now : String) (store : Store)
    (retrieved : List RetrievedDoc) (ans : String)
    (hmsg : py_strip (pm.getD "") ≠ "")
    (hsid : psid = none ∨ psid = some "" ∨
      ∃ sid, psid = some sid ∧ lookup_session store sid = none) :
    (chat_session psid pm fresh_id now store retrieved (Except.ok ans)).1 =
      SessionOutcome.ok fresh_id ans (retrieved.map mk_source_entry) ∧
    lookup_session
        (chat_session psid pm fresh_id now store retrieved
          (Except.ok ans)).2.1 fresh_id =
      some ⟨fresh_id, "New chat", now,
        [Message.mk "user" (py_strip (pm.getD "")),
         Message.mk "assistant" ans],
        [Section.mk now (py_strip (pm.getD "")) ans],
        (extract_topic (py_strip (pm.getD "")) (some "")).getD ""⟩ := by
  have hres : resolve_session psid fresh_id now store =
      (fresh_id, new_session fresh_id now "New chat") := by
    rcases hsid with h | h | ⟨sid, hs, hl⟩
    · rw [h]; rfl
    · rw [h]; rfl
    · rw [hs]
      unfold resolve_session
      by_cases he : sid = ""
      · simp [he]
      · simp [he, hl]
  constructor
  · unfold chat_session
    rw [if_neg hmsg, hres]
  · unfold chat_session
    rw [if_neg hmsg, hres]
    exact lookup_insert_session store fresh_id _

/-- C10 (witness): an unknown session id on an empty store at a
concrete request. -/
theorem C10_unknown_session_creates_witness :
    (chat_session (some "nope") (some "hello") "s1" "t0" [] []
        (Except.ok "fine")).1 =
      SessionOutcome.ok "s1" "fine" [] ∧
    lookup_session
        (chat_session (some "nope") (some "hello") "s1" "t0" [] []
          (Except.ok "fine")).2.1 "s1" =
      some ⟨"s1", "New chat", "t0",
        [Message.mk "user" "hello", Message.mk "assistant" "fine"],
        [Section.mk "t0" "hello" "fine"], "hello"⟩ :=
  C10_unknown_session_creates (some "nope") (some "hello") "s1" "t0" [] []
    "fine" (by decide) (Or.inr (Or.inr ⟨"nope", rfl, rfl⟩))

end SageAlpha
